import Mathlib

/-!
Verification of the voice-calling-assistant backend.

This file shallowly embeds the per-call bridge session (`DeepgramCallSession`
in `apps/backend/src/deepgramSession.ts`), the heuristic transcript extractor,
the outcome materializer and the stale-call reconciler
(`apps/backend/src/supabase.ts`), and proves properties of the embedding.

Conventions:
- JavaScript strings are Lean `String`s; character-level work happens on
  `String.data : List Char`.
- Machine numbers that the code treats as integers are `Int`/`Nat`.
- Async persistence functions whose failures the code catches and swallows
  are modelled as pure state transformers on an explicit database value.
- JavaScript regular expressions are embedded via a small backtracking
  regex interpreter (`RE`, below) with JS semantics: ordered alternation,
  greedy quantifiers, leftmost match, numbered capture groups.
-/

/-! ## Basic string helpers (JS semantics) -/

/-- JS `String.prototype.toLowerCase` restricted to the ASCII range used by
the program (`Char.toLower` lowercases ASCII letters). -/
def lowerL (s : List Char) : List Char := s.map Char.toLower

/-- Does `s` start with `pat`? (list-of-chars version of a prefix test). -/
def startsWithSeq : List Char → List Char → Bool
  | [], _ => true
  | _ :: _, [] => false
  | p :: ps, c :: cs => p == c && startsWithSeq ps cs

/-- JS `String.prototype.includes`: does `pat` occur contiguously in `s`? -/
def containsSeq : List Char → List Char → Bool
  | pat, [] => startsWithSeq pat []
  | pat, c :: rest => startsWithSeq pat (c :: rest) || containsSeq pat rest

theorem startsWithSeq_append (pat suf : List Char) :
    startsWithSeq pat (pat ++ suf) = true := by
  induction pat with
  | nil => rfl
  | cons c cs ih => simp [startsWithSeq, ih]

theorem containsSeq_nil_left (s : List Char) : containsSeq [] s = true := by
  induction s with
  | nil => rfl
  | cons c cs ih => simp [containsSeq, startsWithSeq]

theorem containsSeq_cons (pat : List Char) (c : Char) (rest : List Char) :
    containsSeq pat (c :: rest) =
      (startsWithSeq pat (c :: rest) || containsSeq pat rest) := rfl

theorem containsSeq_self_append (pat suf : List Char) :
    containsSeq pat (pat ++ suf) = true := by
  cases pat with
  | nil => simpa using containsSeq_nil_left suf
  | cons p ps =>
    rw [List.cons_append, containsSeq_cons, ← List.cons_append,
      startsWithSeq_append]
    simp

theorem containsSeq_of_append (pat pre suf : List Char) :
    containsSeq pat (pre ++ pat ++ suf) = true := by
  induction pre with
  | nil =>
    simp only [List.nil_append]
    exact containsSeq_self_append pat suf
  | cons c cs ih =>
    rw [List.cons_append, List.cons_append, containsSeq_cons, ih]
    simp

/-! ## The call bridge session (`DeepgramCallSession`)

The session's agent-socket handle is modelled by its `readyState`
(`WebSocket.CONNECTING/OPEN/CLOSING/CLOSED`), wrapped in `Option` because the
field starts out `null`.  Sends on the sockets are recorded as observation
traces (`sentChunks` for audio frames, `closeFramesSent` for `Close` control
frames) so that ordering and idempotence claims are expressible. -/

inductive WsState where
  | connecting
  | opened
  | closing
  | closed
deriving DecidableEq, Repr

/-- One audio chunk: `Buffer.from(payload, 'base64')` is modelled as a
constructor application on the base64 payload (decoding is a pure injective
map; only identity/ordering of chunks matters to the claims). -/
structure Chunk where
  payload : String
deriving DecidableEq, Repr

/-- The Twilio media frame shape used by `handleTwilioEvent`:
`{ event?: string; media?: { payload?: string } }`. -/
structure TwilioMediaPayload where
  event : Option String
  media : Option (Option String)
deriving DecidableEq, Repr

/-- A `media` frame carrying the given base64 payload. -/
def mediaEvent (p : String) : TwilioMediaPayload :=
  { event := some "media", media := some (some p) }

/-- The `stop` frame. -/
def stopEvent : TwilioMediaPayload :=
  { event := some "stop", media := none }

/-- Mutable per-call session state of `DeepgramCallSession`, plus the two
outbound observation traces. -/
structure Session where
  deepgramWs : Option WsState
  deepgramReady : Bool
  settingsSent : Bool
  pendingAudioChunks : List Chunk
  sentChunks : List Chunk
  closeFramesSent : Nat
deriving DecidableEq, Repr

/-- JS truthiness of `event.media?.payload`: present and non-empty. -/
def mediaPayloadOf (e : TwilioMediaPayload) : Option String :=
  match e.media with
  | none => none
  | some none => none
  | some (some p) => if p = "" then none else some p

/-- `DeepgramCallSession.handleTwilioEvent` (final variant):
returns immediately unless the agent socket exists and is OPEN; buffers
media while `!settingsSent || !deepgramReady` (bounded at 256, the arriving
chunk is dropped when the buffer is full); forwards media live otherwise;
on `stop` sends a `Close` frame and closes the agent socket. -/
def handleTwilioEvent (e : TwilioMediaPayload) (s : Session) : Session :=
  if s.deepgramWs ≠ some WsState.opened then s
  else if e.event = some "media" ∧ (mediaPayloadOf e).isSome then
    let chunk : Chunk := ⟨(mediaPayloadOf e).getD ""⟩
    if !s.settingsSent || !s.deepgramReady then
      if s.pendingAudioChunks.length < 256 then
        { s with pendingAudioChunks := s.pendingAudioChunks ++ [chunk] }
      else s
    else
      { s with sentChunks := s.sentChunks ++ [chunk] }
  else if e.event = some "stop" then
    { s with closeFramesSent := s.closeFramesSent + 1,
             deepgramWs := some WsState.closing }
  else s

/-- The `SettingsApplied` branch of the agent-socket message handler:
sets `deepgramReady` and, if the socket is OPEN and chunks are pending,
flushes them in order and empties the queue. -/
def settingsAppliedStep (s : Session) : Session :=
  let s1 := { s with deepgramReady := true }
  if s1.pendingAudioChunks.length > 0 ∧ s1.deepgramWs = some WsState.opened then
    { s1 with sentChunks := s1.sentChunks ++ s1.pendingAudioChunks,
              pendingAudioChunks := [] }
  else s1

/-- `DeepgramCallSession.close`: only if the socket exists and is OPEN,
send a `Close` frame and close the socket (`ws.close()` moves the
readyState to CLOSING). -/
def sessionClose (s : Session) : Session :=
  if s.deepgramWs = some WsState.opened then
    { s with closeFramesSent := s.closeFramesSent + 1,
             deepgramWs := some WsState.closing }
  else s

/-- Feeding a sequence of carrier `media` frames to the session. -/
def processMedia (ps : List String) (s : Session) : Session :=
  ps.foldl (fun st p => handleTwilioEvent (mediaEvent p) st) s

/-- The session state on entering the Buffering stage: agent socket OPEN,
settings sent, readiness confirmation not yet received, empty buffer. -/
def bufferingSession : Session :=
  { deepgramWs := some WsState.opened, deepgramReady := false,
    settingsSent := true, pendingAudioChunks := [], sentChunks := [],
    closeFramesSent := 0 }

/-! Small stepping lemmas about `handleTwilioEvent` on media frames. -/

theorem handleTwilioEvent_media_buffering (p : String) (s : Session)
    (hws : s.deepgramWs = some WsState.opened)
    (hrdy : s.deepgramReady = false) (hp : p ≠ "") :
    handleTwilioEvent (mediaEvent p) s =
      (if s.pendingAudioChunks.length < 256 then
        { s with pendingAudioChunks := s.pendingAudioChunks ++ [⟨p⟩] }
      else s) := by
  simp [handleTwilioEvent, mediaEvent, mediaPayloadOf, hws, hrdy, hp]

theorem handleTwilioEvent_pending_le (e : TwilioMediaPayload) (s : Session)
    (h : s.pendingAudioChunks.length ≤ 256) :
    (handleTwilioEvent e s).pendingAudioChunks.length ≤ 256 := by
  unfold handleTwilioEvent
  split
  · exact h
  · split
    · split
      · split
        · simp only [List.length_append, List.length_cons, List.length_nil]
          omega
        · exact h
      · exact h
    · split
      · exact h
      · exact h

theorem processMedia_pending_le (ps : List String) (s : Session)
    (h : s.pendingAudioChunks.length ≤ 256) :
    (processMedia ps s).pendingAudioChunks.length ≤ 256 := by
  induction ps generalizing s with
  | nil => exact h
  | cons p ps ih =>
    exact ih _ (handleTwilioEvent_pending_le _ _ h)

set_option maxRecDepth 40000 in
/-- C1 claims the buffer is bounded by 256 *and* that overflow evicts the
oldest entries, keeping the newest chunk.  The bound holds, but the code
reads `if (this.pendingAudioChunks.length < 256) push(chunk)`: on overflow
the arriving (newest) chunk is discarded and the buffered entries are kept.
This closed counterexample runs 257 distinct media chunks from the
Buffering state: the buffer holds the first 256 chunks, still starts with
the oldest chunk `"0"`, and the newest chunk `"256"` is absent. -/
theorem c1_counterexample :
    ((processMedia ((List.range 257).map (fun n => Nat.repr n))
        bufferingSession).pendingAudioChunks.length = 256) ∧
    ((processMedia ((List.range 257).map (fun n => Nat.repr n))
        bufferingSession).pendingAudioChunks.head? = some ⟨Nat.repr 0⟩) ∧
    (⟨Nat.repr 256⟩ ∉ (processMedia ((List.range 257).map (fun n => Nat.repr n))
        bufferingSession).pendingAudioChunks) := by
  decide

/-- C1 (amended): for every sequence of carrier media chunks arriving before
the agent confirms settings, the pending-audio buffer's length never exceeds
its capacity of 256 entries; when a chunk arrives while the buffer is full,
the arriving (newest) chunk is discarded and the session — in particular the
already-buffered entries — is left unchanged. -/
theorem c1_buffer_bound_and_drop_newest (s : Session) (ps : List String)
    (p : String) (hlen : s.pendingAudioChunks.length ≤ 256)
    (hrdy : s.deepgramReady = false) :
    (processMedia ps s).pendingAudioChunks.length ≤ 256 ∧
    (s.pendingAudioChunks.length = 256 →
      handleTwilioEvent (mediaEvent p) s = s) := by
  refine ⟨processMedia_pending_le ps s hlen, fun hfull => ?_⟩
  unfold handleTwilioEvent
  split
  · rfl
  · by_cases hp : p = ""
    · simp [mediaEvent, mediaPayloadOf, hp]
    · simp [mediaEvent, mediaPayloadOf, hp, hrdy, hfull]

set_option maxRecDepth 40000 in
/-- Witness for `c1_buffer_bound_and_drop_newest` at a concrete full buffer. -/
theorem c1_buffer_bound_and_drop_newest_witness :
    (processMedia ["a", "b"]
        (processMedia ((List.range 257).map (fun n => Nat.repr n))
          bufferingSession)).pendingAudioChunks.length ≤ 256 ∧
    ((processMedia ((List.range 257).map (fun n => Nat.repr n))
        bufferingSession).pendingAudioChunks.length = 256 →
      handleTwilioEvent (mediaEvent "x")
        (processMedia ((List.range 257).map (fun n => Nat.repr n))
          bufferingSession) =
      processMedia ((List.range 257).map (fun n => Nat.repr n))
        bufferingSession) :=
  c1_buffer_bound_and_drop_newest _ ["a", "b"] "x" (by decide) (by decide)

/-! C5: in-order buffering and in-order flush. -/

theorem settingsAppliedStep_open (s : Session)
    (hws : s.deepgramWs = some WsState.opened) :
    (settingsAppliedStep s).sentChunks =
        s.sentChunks ++ s.pendingAudioChunks ∧
    (settingsAppliedStep s).pendingAudioChunks = [] := by
  unfold settingsAppliedStep
  by_cases h : s.pendingAudioChunks = []
  · simp [h, hws]
  · have hpos : 0 < s.pendingAudioChunks.length := List.length_pos.mpr h
    simp [hws, hpos]

theorem processMedia_buffering_order (ps : List String) (s : Session)
    (hws : s.deepgramWs = some WsState.opened)
    (hrdy : s.deepgramReady = false)
    (hfit : s.pendingAudioChunks.length + ps.length ≤ 256)
    (hne : ∀ p ∈ ps, p ≠ "") :
    processMedia ps s =
      { s with pendingAudioChunks :=
          s.pendingAudioChunks ++ ps.map (fun p => ⟨p⟩) } := by
  induction ps generalizing s with
  | nil => simp [processMedia]
  | cons p ps ih =>
    have hp : p ≠ "" := hne p (by simp)
    have hlt : s.pendingAudioChunks.length < 256 := by
      simp only [List.length_cons] at hfit; omega
    have hstep : handleTwilioEvent (mediaEvent p) s =
        { s with pendingAudioChunks := s.pendingAudioChunks ++ [⟨p⟩] } := by
      rw [handleTwilioEvent_media_buffering p s hws hrdy hp, if_pos hlt]
    show processMedia ps (handleTwilioEvent (mediaEvent p) s) = _
    rw [hstep]
    rw [ih _ (by simpa using hws) (by simpa using hrdy)
      (by simp only [List.length_append, List.length_cons, List.length_nil]
          simp only [List.length_cons] at hfit; omega)
      (fun q hq => hne q (by simp [hq]))]
    simp

/-- C5: all carrier audio chunks arriving while `deepgramReady = false` (the
agent socket OPEN, the chunks fitting within capacity) are appended to the
pending queue in arrival order without being forwarded, and the
`SettingsApplied` confirmation then flushes exactly the buffered chunks to
the agent socket in that same arrival order, leaving the queue empty. -/
theorem c5_buffer_then_flush_in_order (ps : List String) (s : Session)
    (hws : s.deepgramWs = some WsState.opened)
    (hrdy : s.deepgramReady = false)
    (hfit : s.pendingAudioChunks.length + ps.length ≤ 256)
    (hne : ∀ p ∈ ps, p ≠ "") :
    (processMedia ps s).pendingAudioChunks =
        s.pendingAudioChunks ++ ps.map (fun p => ⟨p⟩) ∧
    (processMedia ps s).sentChunks = s.sentChunks ∧
    (settingsAppliedStep (processMedia ps s)).sentChunks =
        s.sentChunks ++ s.pendingAudioChunks ++ ps.map (fun p => ⟨p⟩) ∧
    (settingsAppliedStep (processMedia ps s)).pendingAudioChunks = [] := by
  have hrun := processMedia_buffering_order ps s hws hrdy hfit hne
  have hflush := settingsAppliedStep_open
    { s with pendingAudioChunks :=
        s.pendingAudioChunks ++ ps.map (fun p => ⟨p⟩) } hws
  rw [hrun]
  refine ⟨rfl, rfl, ?_, hflush.2⟩
  rw [hflush.1]
  simp [List.append_assoc]

/-- Witness for `c5_buffer_then_flush_in_order` on three concrete chunks. -/
theorem c5_buffer_then_flush_in_order_witness :
    (processMedia ["aa", "bb", "cc"] bufferingSession).pendingAudioChunks =
        bufferingSession.pendingAudioChunks ++
          (["aa", "bb", "cc"].map (fun p => ⟨p⟩)) ∧
    (processMedia ["aa", "bb", "cc"] bufferingSession).sentChunks =
        bufferingSession.sentChunks ∧
    (settingsAppliedStep (processMedia ["aa", "bb", "cc"] bufferingSession)).sentChunks =
        bufferingSession.sentChunks ++ bufferingSession.pendingAudioChunks ++
          (["aa", "bb", "cc"].map (fun p => ⟨p⟩)) ∧
    (settingsAppliedStep
        (processMedia ["aa", "bb", "cc"] bufferingSession)).pendingAudioChunks = [] :=
  c5_buffer_then_flush_in_order ["aa", "bb", "cc"] bufferingSession rfl rfl
    (by decide) (by decide)

/-- C6: closing a session is idempotent.  After `close()` has run once, the
agent socket is no longer OPEN (it moved to CLOSING), so a second `close()`
takes the guard's false branch: it changes nothing — in particular it sends
no second `Close` frame and performs no second socket close.  (The model is
a total function, so no exception can be raised.) -/
theorem c6_close_idempotent (s : Session) :
    sessionClose (sessionClose s) = sessionClose s ∧
    (sessionClose (sessionClose s)).closeFramesSent =
      (sessionClose s).closeFramesSent := by
  constructor
  · unfold sessionClose
    by_cases h : s.deepgramWs = some WsState.opened <;> simp [h]
  · unfold sessionClose
    by_cases h : s.deepgramWs = some WsState.opened <;> simp [h]

/-- C10: every carrier frame arriving while the agent websocket is `null` or
not OPEN is ignored entirely by `handleTwilioEvent` — the session is
unchanged, so the audio chunk is neither forwarded (`sentChunks`) nor
buffered (`pendingAudioChunks`). -/
theorem c10_discard_before_open (e : TwilioMediaPayload) (s : Session)
    (h : s.deepgramWs ≠ some WsState.opened) :
    handleTwilioEvent e s = s := by
  unfold handleTwilioEvent
  simp [h]

/-- Witness for `c10_discard_before_open`: a media chunk arriving while the
socket is still `null` is dropped. -/
theorem c10_discard_before_open_witness :
    handleTwilioEvent (mediaEvent "zz")
      { deepgramWs := none, deepgramReady := false, settingsSent := false,
        pendingAudioChunks := [], sentChunks := [], closeFramesSent := 0 } =
      { deepgramWs := none, deepgramReady := false, settingsSent := false,
        pendingAudioChunks := [], sentChunks := [], closeFramesSent := 0 } :=
  c10_discard_before_open _ _ (by decide)

/-! ## A small JS-style regex interpreter

Just enough of ECMAScript regex semantics for the patterns in
`buildStructuredCallOutcome`: ordered (leftmost-biased) alternation, greedy
quantifiers with backtracking, leftmost-first search, numbered capture
groups (last completed occurrence wins), word-boundary assertions, and the
`i` flag (realized by lowercasing both sides of every literal comparison).
Character classes are the ASCII fragments actually exercised by the
program's inputs. -/

inductive RE where
  | eps : RE
  | pred : (Char → Bool) → RE
  | cat : RE → RE → RE
  | alt : RE → RE → RE
  | star : RE → RE
  | group : Nat → RE → RE
  | wordB : RE

/-- JS `\w` (ASCII): letters, digits, underscore. -/
def isWordChar (c : Char) : Bool := c.isAlphanum || c == '_'

/-- JS `\s` (ASCII whitespace fragment). -/
def wsChar (c : Char) : Bool :=
  c == ' ' || c == '\t' || c == '\n' || c == '\r' || c == '\x0b' || c == '\x0c'

/-- Is there a `\b` word boundary between `prev` (the character just before
the current position, if any) and the rest of the input? -/
def wordBoundaryAt (prev : Option Char) (s : List Char) : Bool :=
  let pw := match prev with | none => false | some c => isWordChar c
  let nw := match s with | [] => false | c :: _ => isWordChar c
  pw != nw

/-- Numbered capture groups recorded as (index, captured characters);
the most recently completed occurrence of a group sits closest to the
head, matching the JS "last capture wins" rule. -/
abbrev Caps := List (Nat × List Char)

/-- Fuel-indexed CPS backtracking matcher.  `prev` carries the character
left of the current position (for `\b`); the continuation receives the
updated position and captures.  Greedy preference is realized by trying
the consuming branch before the empty one, and alternation is
left-biased.  A `star` iteration that consumes nothing stops the loop
(the JS empty-match rule). -/
def matchCore : Nat → RE → Option Char → List Char → Caps →
    (Option Char → List Char → Caps → Option (Caps × List Char)) →
    Option (Caps × List Char)
  | 0, _, _, _, _, _ => none
  | _ + 1, RE.eps, prev, s, caps, k => k prev s caps
  | _ + 1, RE.pred p, _, s, caps, k =>
    match s with
    | [] => none
    | c :: rest => if p c then k (some c) rest caps else none
  | fuel + 1, RE.cat r1 r2, prev, s, caps, k =>
    matchCore fuel r1 prev s caps
      (fun prev2 s2 caps2 => matchCore fuel r2 prev2 s2 caps2 k)
  | fuel + 1, RE.alt r1 r2, prev, s, caps, k =>
    match matchCore fuel r1 prev s caps k with
    | some res => some res
    | none => matchCore fuel r2 prev s caps k
  | fuel + 1, RE.star r, prev, s, caps, k =>
    match matchCore fuel r prev s caps (fun prev2 s2 caps2 =>
        if s2.length < s.length then
          matchCore fuel (RE.star r) prev2 s2 caps2 k
        else none) with
    | some res => some res
    | none => k prev s caps
  | fuel + 1, RE.group i r, prev, s, caps, k =>
    matchCore fuel r prev s caps (fun prev2 s2 caps2 =>
      k prev2 s2 ((i, s.take (s.length - s2.length)) :: caps2))
  | _ + 1, RE.wordB, prev, s, caps, k =>
    if wordBoundaryAt prev s then k prev s caps else none

/-- Structural size of a regex, used to bound the matcher's fuel. -/
def reSize : RE → Nat
  | RE.eps => 1
  | RE.pred _ => 1
  | RE.cat r1 r2 => reSize r1 + reSize r2 + 1
  | RE.alt r1 r2 => reSize r1 + reSize r2 + 1
  | RE.star r => reSize r + 1
  | RE.group _ r => reSize r + 1
  | RE.wordB => 1

/-- Generous fuel: the matcher's call depth is bounded by the regex size
per character consumed (stars must consume to loop), so this never runs
out on the patterns below. -/
def jsFuel (r : RE) (s : List Char) : Nat := (reSize r + 2) * (s.length + 2)

/-- Result of a JS `String.match`: the whole match (group 0) and the
numbered captures. -/
structure MatchRes where
  whole : List Char
  caps : Caps
deriving Repr

/-- Try to match `r` exactly at the current position. -/
def tryMatchAt (r : RE) (prev : Option Char) (s : List Char) : Option MatchRes :=
  match matchCore (jsFuel r s) r prev s [] (fun _ s2 caps => some (caps, s2)) with
  | none => none
  | some (caps, rest) => some ⟨s.take (s.length - rest.length), caps⟩

/-- Leftmost search: try each position from the left, as JS
`String.prototype.match` does for a non-global regex. -/
def jsMatchAux (r : RE) : Option Char → List Char → Option MatchRes
  | prev, s =>
    match tryMatchAt r prev s with
    | some m => some m
    | none =>
      match s with
      | [] => none
      | c :: rest => jsMatchAux r (some c) rest

/-- JS `s.match(r)` for a non-global regex. -/
def jsMatch (r : RE) (s : List Char) : Option MatchRes := jsMatchAux r none s

/-- JS `r.test(s)`. -/
def jsTest (r : RE) (s : List Char) : Bool := (jsMatch r s).isSome

/-- JS `match[i]` (an unmatched optional group is `undefined`). -/
def grpGet (m : MatchRes) (i : Nat) : Option (List Char) :=
  (m.caps.find? (fun p => p.1 == i)).map Prod.snd

/-- JS truthiness of a possibly-undefined string. -/
def jsTruthyL : Option (List Char) → Bool
  | none => false
  | some l => !l.isEmpty

/-! Character classes and combinators for the program's patterns. -/

/-- The apostrophe character. -/
def apos : Char := Char.ofNat 39

/-- Case-insensitive literal character (the `i` flag). -/
def ichr (c : Char) : RE := RE.pred (fun x => x.toLower == c)

/-- Case-insensitive literal string. -/
def istr (s : String) : RE := (s.data.map ichr).foldr RE.cat RE.eps

/-- `[a-z]` under the `i` flag. -/
def lowAZ : RE := RE.pred (fun x => 'a' ≤ x.toLower && x.toLower ≤ 'z')

/-- `\s` -/
def wsp : RE := RE.pred wsChar

/-- `\d` -/
def dgt : RE := RE.pred Char.isDigit

/-- `.` (anything but a line terminator). -/
def dotAny : RE := RE.pred (fun c => !(c == '\n' || c == '\r'))

/-- `r?` (greedy). -/
def q01 (r : RE) : RE := RE.alt r RE.eps

/-- `r+` (greedy). -/
def rep1 (r : RE) : RE := RE.cat r (RE.star r)

/-- `\s+` -/
def wspP : RE := rep1 wsp

/-- `\s*` -/
def wspS : RE := RE.star wsp

/-- `r{0,2}` (greedy). -/
def rep02 (r : RE) : RE := q01 (RE.cat r (q01 r))

/-- `'` as a single-character class. -/
def aposP : RE := RE.pred (fun c => c == apos)

/-- `\d{1,2}` (greedy). -/
def d12 : RE := RE.cat dgt (q01 dgt)

/-! ## The extractor's regular expressions (from `buildStructuredCallOutcome`) -/

/-- `[a-z]+(?:\s+[a-z]+){0,2}` — the 1-to-3-word name core shared by all
name-announcement patterns. -/
def nameCore : RE := RE.cat (rep1 lowAZ) (rep02 (RE.cat wspP (rep1 lowAZ)))

/-- `/my name is\s+(?:like\s+)?([a-z]+(?:\s+[a-z]+){0,2})/i` -/
def namePat1 : RE :=
  RE.cat (istr "my name is")
    (RE.cat wspP (RE.cat (q01 (RE.cat (istr "like") wspP)) (RE.group 1 nameCore)))

/-- `/name\s+is\s+([a-z]+(?:\s+[a-z]+){0,2})/i` -/
def namePat2 : RE :=
  RE.cat (istr "name")
    (RE.cat wspP (RE.cat (istr "is") (RE.cat wspP (RE.group 1 nameCore))))

/-- `/this is\s+([a-z]+(?:\s+[a-z]+){0,2})/i` -/
def namePat3 : RE := RE.cat (istr "this is") (RE.cat wspP (RE.group 1 nameCore))

/-- `/it(?:\s|')?s\s+([a-z]+(?:\s+[a-z]+){0,2})/i` -/
def namePat4 : RE :=
  RE.cat (istr "it")
    (RE.cat (q01 (RE.alt wsp aposP))
      (RE.cat (istr "s") (RE.cat wspP (RE.group 1 nameCore))))

/-- `/([a-z]+(?:\s+[a-z]+){0,2})\s+speaking/i` -/
def namePat5 : RE := RE.cat (RE.group 1 nameCore) (RE.cat wspP (istr "speaking"))

/-- `/i(?:\s|')?m\s+([a-z]+(?:\s+[a-z]+){0,2})/i` -/
def namePat6 : RE :=
  RE.cat (istr "i")
    (RE.cat (q01 (RE.alt wsp aposP))
      (RE.cat (istr "m") (RE.cat wspP (RE.group 1 nameCore))))

/-- `/under\s+(?:the\s+)?name\s+([a-z]+(?:\s+[a-z]+){0,2})/i` -/
def namePat7 : RE :=
  RE.cat (istr "under")
    (RE.cat wspP
      (RE.cat (q01 (RE.cat (istr "the") wspP))
        (RE.cat (istr "name") (RE.cat wspP (RE.group 1 nameCore)))))

/-- `(mr\.|mrs\.|ms\.)` -/
def honorific : RE := RE.alt (istr "mr.") (RE.alt (istr "mrs.") (istr "ms."))

/-- `/thank you,\s*(mr\.|mrs\.|ms\.)?\s*([a-z]+(?:\s+[a-z]+){0,2})/i` -/
def thankPat1 : RE :=
  RE.cat (istr "thank you,")
    (RE.cat wspS
      (RE.cat (q01 (RE.group 1 honorific)) (RE.cat wspS (RE.group 2 nameCore))))

/-- `/thanks,\s*(mr\.|mrs\.|ms\.)?\s*([a-z]+(?:\s+[a-z]+){0,2})/i` -/
def thankPat2 : RE :=
  RE.cat (istr "thanks,")
    (RE.cat wspS
      (RE.cat (q01 (RE.group 1 honorific)) (RE.cat wspS (RE.group 2 nameCore))))

/-- `/(\d{1,2}(:\d{2})?\s?(am|pm))/i` — the 12-hour clock time token. -/
def timeRE : RE :=
  RE.group 1
    (RE.cat d12
      (RE.cat (q01 (RE.group 2 (RE.cat (ichr ':') (RE.cat dgt dgt))))
        (RE.cat (q01 wsp) (RE.group 3 (RE.alt (istr "am") (istr "pm"))))))

/-- `(?:people|persons|guests)` -/
def peopleAlt : RE := RE.alt (istr "people") (RE.alt (istr "persons") (istr "guests"))

/-- `/party\s+of\s+(\d{1,2})/i` -/
def partyNum1 : RE :=
  RE.cat (istr "party")
    (RE.cat wspP (RE.cat (istr "of") (RE.cat wspP (RE.group 1 d12))))

/-- `/table\s+for\s+(\d{1,2})/i` -/
def partyNum2 : RE :=
  RE.cat (istr "table")
    (RE.cat wspP (RE.cat (istr "for") (RE.cat wspP (RE.group 1 d12))))

/-- `/for\s+(\d{1,2})\s+(?:people|persons|guests)/i` -/
def partyNum3 : RE :=
  RE.cat (istr "for")
    (RE.cat wspP (RE.cat (RE.group 1 d12) (RE.cat wspP peopleAlt)))

/-- `(one|two|three|four|five|six|seven|eight|nine|ten|eleven|twelve)` -/
def numWordAlt : RE :=
  RE.alt (istr "one") (RE.alt (istr "two") (RE.alt (istr "three")
    (RE.alt (istr "four") (RE.alt (istr "five") (RE.alt (istr "six")
      (RE.alt (istr "seven") (RE.alt (istr "eight") (RE.alt (istr "nine")
        (RE.alt (istr "ten") (RE.alt (istr "eleven") (istr "twelve")))))))))))

/-- `/party\s+of\s+(one|…|twelve)\b/i` -/
def partyWord1 : RE :=
  RE.cat (istr "party")
    (RE.cat wspP
      (RE.cat (istr "of")
        (RE.cat wspP (RE.cat (RE.group 1 numWordAlt) RE.wordB))))

/-- `/table\s+for\s+(one|…|twelve)\b/i` -/
def partyWord2 : RE :=
  RE.cat (istr "table")
    (RE.cat wspP
      (RE.cat (istr "for")
        (RE.cat wspP (RE.cat (RE.group 1 numWordAlt) RE.wordB))))

/-- `/for\s+(one|…|twelve)\s+(?:people|persons|guests)\b/i` -/
def partyWord3 : RE :=
  RE.cat (istr "for")
    (RE.cat wspP
      (RE.cat (RE.group 1 numWordAlt)
        (RE.cat wspP (RE.cat peopleAlt RE.wordB))))

/-- `/\b(today|tonight|tomorrow)\b/i` -/
def dateRE1 : RE :=
  RE.cat RE.wordB
    (RE.cat (RE.group 1 (RE.alt (istr "today") (RE.alt (istr "tonight") (istr "tomorrow"))))
      RE.wordB)

/-- `(?:st|nd|rd|th)` -/
def ordSuf : RE := RE.alt (istr "st") (RE.alt (istr "nd") (RE.alt (istr "rd") (istr "th")))

/-- `(?:,\s*\d{4})` -/
def yearSuf : RE :=
  RE.cat (ichr ',') (RE.cat wspS (RE.cat dgt (RE.cat dgt (RE.cat dgt dgt))))

/-- `/\bon\s+([a-z]+\s+\d{1,2}(?:st|nd|rd|th)?(?:,\s*\d{4})?)/i` -/
def dateRE2 : RE :=
  RE.cat RE.wordB
    (RE.cat (istr "on")
      (RE.cat wspP
        (RE.group 1
          (RE.cat (rep1 lowAZ)
            (RE.cat wspP (RE.cat d12 (RE.cat (q01 ordSuf) (q01 yearSuf))))))))

/-- `(birthday|anniversary|date night|business dinner|family dinner|celebration|engagement|meeting)` -/
def occWordAlt : RE :=
  RE.alt (istr "birthday") (RE.alt (istr "anniversary") (RE.alt (istr "date night")
    (RE.alt (istr "business dinner") (RE.alt (istr "family dinner")
      (RE.alt (istr "celebration") (RE.alt (istr "engagement") (istr "meeting")))))))

/-- `(?:for|occasion is|it'?s|its)` -/
def occLead : RE :=
  RE.alt (istr "for")
    (RE.alt (istr "occasion is")
      (RE.alt (RE.cat (istr "it") (RE.cat (q01 aposP) (istr "s"))) (istr "its")))

/-- `/\b(?:for|occasion is|it'?s|its)\s+(birthday|…|meeting)\b/i` -/
def occRE1 : RE :=
  RE.cat RE.wordB
    (RE.cat occLead (RE.cat wspP (RE.cat (RE.group 1 occWordAlt) RE.wordB)))

/-- `/\b(birthday|…|meeting)\b/i` -/
def occRE2 : RE := RE.cat RE.wordB (RE.cat (RE.group 1 occWordAlt) RE.wordB)

/-- `/(?:reservation|table).*(?:confirmed|reserved)|you have a reservation|your table.*reserved/i` -/
def assistantConfirmedRE : RE :=
  RE.alt
    (RE.cat (RE.alt (istr "reservation") (istr "table"))
      (RE.cat (RE.star dotAny) (RE.alt (istr "confirmed") (istr "reserved"))))
    (RE.alt (istr "you have a reservation")
      (RE.cat (istr "your table") (RE.cat (RE.star dotAny) (istr "reserved"))))

/-! ## String plumbing used by the extractor -/

/-- `replace(/[,\n]+/g, ' ')`: each maximal run of commas/newlines becomes
one space.  The Boolean argument tracks whether the previous character was
part of such a run. -/
def normalizeUserAux : Bool → List Char → List Char
  | _, [] => []
  | inRun, c :: rest =>
    if c == ',' || c == '\n' then
      (if inRun then normalizeUserAux true rest else ' ' :: normalizeUserAux true rest)
    else c :: normalizeUserAux false rest

/-- `userTranscript.replace(/[,\n]+/g, ' ')` -/
def normalizeUser (s : List Char) : List Char := normalizeUserAux false s

/-- `String.prototype.split(sep)` (single-character separator, keeps empty
segments like JS). -/
def splitOnChar (sep : Char) : List Char → List (List Char)
  | [] => [[]]
  | c :: rest =>
    match splitOnChar sep rest with
    | [] => if c == sep then [[], []] else [[c]]
    | w :: ws => if c == sep then [] :: w :: ws else (c :: w) :: ws

/-- `Array.prototype.join(' ')`. -/
def joinSpace : List (List Char) → List Char
  | [] => []
  | [w] => w
  | w :: ws => w ++ ' ' :: joinSpace ws

/-- Collapse `\s+` runs to a single space (`replace(/\s+/g, ' ')`). -/
def collapseWs : Bool → List Char → List Char
  | _, [] => []
  | inRun, c :: rest =>
    if wsChar c then
      (if inRun then collapseWs true rest else ' ' :: collapseWs true rest)
    else c :: collapseWs false rest

/-- `String.prototype.trim`. -/
def trimChars (s : List Char) : List Char :=
  ((s.dropWhile wsChar).reverse.dropWhile wsChar).reverse

/-- JS `String.prototype.slice(-n)`. -/
def lastN (n : Nat) (l : List Char) : List Char := l.drop (l.length - n)

/-- `Number(digits)` for a nonempty digit string. -/
def digitsToNat (ds : List Char) : Nat :=
  ds.foldl (fun acc c => acc * 10 + (c.toNat - 48)) 0

/-! ## The heuristic transcript extractor (`buildStructuredCallOutcome`) -/

/-- The user-side name match: the seven announcement patterns tried in
priority order (`??`) against the comma/newline-normalized caller text. -/
def nameMatchUser (nu : List Char) : Option MatchRes :=
  jsMatch namePat1 nu <|> jsMatch namePat2 nu <|> jsMatch namePat3 nu <|>
  jsMatch namePat4 nu <|> jsMatch namePat5 nu <|> jsMatch namePat6 nu <|>
  jsMatch namePat7 nu

/-- `extractedName` after the user patterns and, failing those (JS
truthiness), the assistant-side "thank you, X" acknowledgment fallback
(capture group 2). -/
def rawExtractedName (userTranscript assistantTranscript : String) :
    Option (List Char) :=
  let fromUser := (nameMatchUser (normalizeUser userTranscript.data)).bind
    (fun m => grpGet m 1)
  if jsTruthyL fromUser then fromUser
  else
    let am := jsMatch thankPat1 assistantTranscript.data <|>
      jsMatch thankPat2 assistantTranscript.data
    let fromAssistant := am.bind (fun m => grpGet m 2)
    if jsTruthyL fromAssistant then fromAssistant else none

/-- The stoplist of `sanitizeExtractedName`. -/
def nameStopList : List (List Char) :=
  ["fine", "okay", "ok", "yes", "no", "name", "my name", "customer"].map
    String.data

/-- `[^\p{L}\s'-]` replacement: keep letters (ASCII fragment), whitespace,
apostrophe and hyphen; everything else becomes a space. -/
def sanitizeMap (c : Char) : Char :=
  if c.isAlpha || wsChar c || c == apos || c == '-' then c else ' '

/-- `sanitizeExtractedName`: strip non-name characters, collapse and trim
whitespace, reject the empty string, the stoplist, and anything over three
words. -/
def sanitizeExtractedName : Option (List Char) → Option (List Char)
  | none => none
  | some name =>
    let cleaned := trimChars (collapseWs false (name.map sanitizeMap))
    if cleaned.isEmpty then none
    else if nameStopList.any (fun w => w == lowerL cleaned) then none
    else
      let words := (splitOnChar ' ' cleaned).filter (fun w => !w.isEmpty)
      if words.length == 0 || words.length > 3 then none
      else some cleaned

/-- `titleCase`: `value.replace(/\b\w/g, m => m.toUpperCase())`. -/
def titleCaseAux : Bool → List Char → List Char
  | _, [] => []
  | prevW, c :: rest =>
    if isWordChar c then
      (if prevW then c else c.toUpper) :: titleCaseAux true rest
    else c :: titleCaseAux false rest

/-- JS title-casing of the sanitized name. -/
def titleCase (s : List Char) : List Char := titleCaseAux false s

/-- `one … twelve` lookup table of `extractPartySize`. -/
def wordToNumber (w : List Char) : Option Nat :=
  if w == "one".data then some 1
  else if w == "two".data then some 2
  else if w == "three".data then some 3
  else if w == "four".data then some 4
  else if w == "five".data then some 5
  else if w == "six".data then some 6
  else if w == "seven".data then some 7
  else if w == "eight".data then some 8
  else if w == "nine".data then some 9
  else if w == "ten".data then some 10
  else if w == "eleven".data then some 11
  else if w == "twelve".data then some 12
  else none

/-- `extractPartySize`: numeric "party of N"/"table for N"/"for N people"
patterns first, then the spelled-out one…twelve variants. -/
def extractPartySize (text : List Char) : Option Nat :=
  let numericMatch := jsMatch partyNum1 text <|> jsMatch partyNum2 text <|>
    jsMatch partyNum3 text
  let num1 := numericMatch.bind (fun m => grpGet m 1)
  if jsTruthyL num1 then (num1.map digitsToNat)
  else
    let wordMatch := jsMatch partyWord1 text <|> jsMatch partyWord2 text <|>
      jsMatch partyWord3 text
    let word1 := wordMatch.bind (fun m => grpGet m 1)
    if jsTruthyL word1 then
      match word1 with
      | some w => wordToNumber (lowerL w)
      | none => none
    else none

/-- A `menu_items` row as selected by the fallback path
(`id, name, price_cents`). -/
structure MenuRow where
  id : String
  name : String
  price_cents : Int
deriving DecidableEq, Repr

/-- One extracted order line. -/
structure OutcomeItem where
  name : String
  menuItemId : Option String
  qty : Int
  lineTotalCents : Int
deriving DecidableEq, Repr

/-- `StructuredCallOutcome.customer`. -/
structure OutcomeCustomer where
  name : String
  has_actual_name : Bool
  caller_phone : Option String
deriving DecidableEq, Repr

/-- `StructuredCallOutcome.intents`. -/
structure OutcomeIntents where
  order : Bool
  reservation : Bool
deriving DecidableEq, Repr

/-- `StructuredCallOutcome.order`. -/
structure OutcomeOrder where
  pickup_time : String
  total_cents : Int
  items : List OutcomeItem
deriving DecidableEq, Repr

/-- `StructuredCallOutcome.reservation` (`status` is `"confirmed"` or
`"escalated"`). -/
structure OutcomeReservation where
  party_size : Nat
  date : String
  reservation_time : String
  occasion : String
  status : String
deriving DecidableEq, Repr

/-- The versioned structured outcome produced by the extractor. -/
structure StructuredCallOutcome where
  schema_version : String
  twilio_call_sid : String
  customer : OutcomeCustomer
  intents : OutcomeIntents
  order : OutcomeOrder
  reservation : OutcomeReservation
deriving DecidableEq, Repr

/-- The sanitized name the extractor settles on (`cleanedName`). -/
def extractedCleanName (userTranscript assistantTranscript : String) :
    Option (List Char) :=
  sanitizeExtractedName (rawExtractedName userTranscript assistantTranscript)

/-- `hasActualName = Boolean(cleanedName)`. -/
def hasActualNameOf (userTranscript assistantTranscript : String) : Bool :=
  jsTruthyL (extractedCleanName userTranscript assistantTranscript)

/-- `timeMatch?.[1]` over the full role-tagged transcript. -/
def timeMatch1 (transcript : String) : Option (List Char) :=
  (jsMatch timeRE transcript.data).bind (fun m => grpGet m 1)

/-- `hasReservationTime = Boolean(timeMatch?.[1])`. -/
def hasReservationTimeOf (transcript : String) : Bool :=
  jsTruthyL (timeMatch1 transcript)

/-- `combinedReservationText` = user + "\n" + assistant, lowercased. -/
def combinedReservationText (userTranscript assistantTranscript : String) :
    List Char :=
  lowerL (userTranscript.data ++ '\n' :: assistantTranscript.data)

/-- `hasPartySize = partySize !== null` over the combined text. -/
def hasPartySizeOf (userTranscript assistantTranscript : String) : Bool :=
  (extractPartySize (combinedReservationText userTranscript assistantTranscript)).isSome

/-- `assistantConfirmedReservation = /…/.test(assistantTranscript)`. -/
def assistantConfirmedOf (assistantTranscript : String) : Bool :=
  jsTest assistantConfirmedRE assistantTranscript.data

/-- `buildStructuredCallOutcome` (final `supabase.ts` variant): the pure
heuristic mapping from one call's transcripts to a `StructuredCallOutcome`.
The caller passes the role-tagged full transcript, the caller-only and
assistant-only texts (all lowercased by the caller), and the active menu. -/
def buildStructuredCallOutcome (twilioCallSid : String)
    (fromNumber : Option String)
    (transcript userTranscript assistantTranscript : String)
    (menuRows : List MenuRow) : StructuredCallOutcome :=
  let cleanedName := extractedCleanName userTranscript assistantTranscript
  let hasActualName := hasActualNameOf userTranscript assistantTranscript
  let fallbackCustomerName :=
    match fromNumber with
    | some ph => "Caller " ++ String.mk (lastN 4 (ph.data.filter Char.isDigit))
    | none => "Caller"
  let customerName :=
    if hasActualName then String.mk (titleCase (cleanedName.getD []))
    else fallbackCustomerName
  let timeM := timeMatch1 transcript
  let pickupTime := match timeM with
    | some l => String.mk l
    | none => "20 minutes"
  let assistantOrderSignals :=
    joinSpace ((splitOnChar '\n' assistantTranscript.data).filter (fun line =>
      containsSeq ("your order").data line ||
      containsSeq ("you ordered").data line ||
      containsSeq ("order for").data line))
  let transcriptForItems :=
    lowerL (userTranscript.data ++ '\n' :: assistantOrderSignals)
  let items := (menuRows.filter (fun item =>
      containsSeq (lowerL item.name.data) transcriptForItems)).map
    (fun item =>
      { name := item.name, menuItemId := some item.id, qty := 1,
        lineTotalCents := item.price_cents })
  let totalCents := (items.map OutcomeItem.lineTotalCents).sum
  let indicatesOrder :=
    containsSeq "order".data transcript.data || decide (items.length > 0)
  let indicatesReservation :=
    containsSeq "reservation".data transcript.data ||
    containsSeq "reserve".data transcript.data ||
    containsSeq "table for".data transcript.data
  let partySize :=
    extractPartySize (combinedReservationText userTranscript assistantTranscript)
  let hasPartySize := hasPartySizeOf userTranscript assistantTranscript
  let dateM := jsMatch dateRE1 userTranscript.data <|>
    jsMatch dateRE2 userTranscript.data
  let reservationDate :=
    match dateM.bind (fun m => grpGet m 1) with
    | some l => String.mk l
    | none =>
      match dateM.map MatchRes.whole with
      | some w => String.mk w
      | none => "today"
  let occasionM := jsMatch occRE1 userTranscript.data <|>
    jsMatch occRE2 userTranscript.data
  let occasion :=
    match occasionM.bind (fun m => grpGet m 1) with
    | some l => String.mk l
    | none => "Not specified"
  let hasReservationTime := hasReservationTimeOf transcript
  let assistantConfirmedReservation := assistantConfirmedOf assistantTranscript
  { schema_version := "1.0",
    twilio_call_sid := twilioCallSid,
    customer :=
      { name := customerName, has_actual_name := hasActualName,
        caller_phone := fromNumber },
    intents := { order := indicatesOrder, reservation := indicatesReservation },
    order :=
      { pickup_time := pickupTime, total_cents := totalCents, items := items },
    reservation :=
      { party_size := if hasPartySize then partySize.getD 2 else 2,
        date := reservationDate,
        reservation_time := if hasReservationTime then pickupTime else "ASAP",
        occasion := occasion,
        status :=
          if (assistantConfirmedReservation && hasPartySize && hasReservationTime) ||
             (hasActualName && hasPartySize && hasReservationTime)
          then "confirmed" else "escalated" } }

/-- Projection of the extractor's customer block: verified names are
title-cased, otherwise the display name is fabricated from the phone. -/
theorem buildOutcome_customer (sid : String) (fn : Option String)
    (t u a : String) (menu : List MenuRow) :
    (buildStructuredCallOutcome sid fn t u a menu).customer =
      { name :=
          if hasActualNameOf u a then
            String.mk (titleCase ((extractedCleanName u a).getD []))
          else
            match fn with
            | some ph => "Caller " ++ String.mk (lastN 4 (ph.data.filter Char.isDigit))
            | none => "Caller",
        has_actual_name := hasActualNameOf u a,
        caller_phone := fn } := rfl

/-! ## Claims about the extractor (C3, C7, C8) -/

/-- C3 as stated is false on the code: the status rule also confirms when
an assistant utterance matches the confirmation regex, even without a
verified name.  Concretely, a caller saying "we need a table for 4 at 7 pm"
with the assistant replying "you have a reservation" yields
`status = "confirmed"` although no name was verified. -/
theorem c3_counterexample :
    ((buildStructuredCallOutcome "CA123" none
        "user: we need a table for 4 at 7 pm\nassistant: you have a reservation"
        "we need a table for 4 at 7 pm" "you have a reservation" []).reservation.status
      = "confirmed") ∧
    ((buildStructuredCallOutcome "CA123" none
        "user: we need a table for 4 at 7 pm\nassistant: you have a reservation"
        "we need a table for 4 at 7 pm" "you have a reservation" []).customer.has_actual_name
      = false) := by
  decide

/-- C3 (amended): reservation status is `"confirmed"` iff a party size was
explicitly stated AND a reservation time was explicitly stated AND (the
name was verified by a genuine pattern match OR an assistant utterance
matched the booking-confirmation patterns); otherwise `"escalated"`.
In particular the claim's three conditions (verified name, party size,
time) still force `"confirmed"`; what the original claim misses is the
assistant-confirmation alternative to the verified name. -/
theorem c3_confirmed_rule (sid : String) (fn : Option String)
    (t u a : String) (menu : List MenuRow) :
    (buildStructuredCallOutcome sid fn t u a menu).reservation.status =
        "confirmed" ↔
      ((hasActualNameOf u a = true ∨ assistantConfirmedOf a = true) ∧
        hasPartySizeOf u a = true ∧ hasReservationTimeOf t = true) := by
  unfold buildStructuredCallOutcome
  cases h1 : hasActualNameOf u a <;> cases h2 : assistantConfirmedOf a <;>
    cases h3 : hasPartySizeOf u a <;> cases h4 : hasReservationTimeOf t <;>
      simp [h1, h2, h3, h4]

/-- C7 as stated is false on the code: the name capture is greedy up to
three words, so a transcript containing "my name is alex rivera" followed
by a further word captures that word too.  The caller text
"my name is alex rivera junior" contains the phrase yet produces
"Alex Rivera Junior", not "Alex Rivera". -/
theorem c7_counterexample :
    containsSeq ("my name is alex rivera".data)
        ("my name is alex rivera junior".data) = true ∧
    (buildStructuredCallOutcome "CA1" none
        "user: my name is alex rivera junior"
        "my name is alex rivera junior" "" []).customer.name =
      "Alex Rivera Junior" ∧
    (buildStructuredCallOutcome "CA1" none
        "user: my name is alex rivera junior"
        "my name is alex rivera junior" "" []).customer.name ≠
      "Alex Rivera" := by
  decide

/-- C7 (amended): whenever the extractor's name-announcement matching
captures exactly "alex rivera" from the caller text (as it does e.g. for a
transcript in which "my name is alex rivera" ends a sentence and no
earlier pattern matches), the extractor returns the title-cased customer
name "Alex Rivera" with `has_actual_name = true`. -/
theorem c7_verified_name (sid : String) (fn : Option String)
    (t u a : String) (menu : List MenuRow)
    (h : rawExtractedName u a = some ("alex rivera".data)) :
    (buildStructuredCallOutcome sid fn t u a menu).customer.name =
        "Alex Rivera" ∧
    (buildStructuredCallOutcome sid fn t u a menu).customer.has_actual_name =
        true := by
  have hclean : extractedCleanName u a = some ("alex rivera".data) := by
    unfold extractedCleanName
    rw [h]
    decide
  have hhas : hasActualNameOf u a = true := by
    unfold hasActualNameOf
    rw [hclean]
    decide
  unfold buildStructuredCallOutcome
  rw [hclean, hhas]
  refine ⟨?_, rfl⟩
  simp only [if_true]
  decide

/-- Witness for `c7_verified_name` on the caller text
"my name is alex rivera.". -/
theorem c7_verified_name_witness :
    (buildStructuredCallOutcome "CA1" none "user: my name is alex rivera."
        "my name is alex rivera." "" []).customer.name = "Alex Rivera" ∧
    (buildStructuredCallOutcome "CA1" none "user: my name is alex rivera."
        "my name is alex rivera." "" []).customer.has_actual_name = true :=
  c7_verified_name "CA1" none "user: my name is alex rivera."
    "my name is alex rivera." "" [] (by decide)

/-- C8: when no name-announcement pattern matches (user patterns and the
assistant acknowledgment fallback both fail), the extractor fabricates the
display name from the caller's phone: "Caller " followed by the last four
digits for phone "+15551234567", or the bare "Caller" when no phone is
known, with `has_actual_name = false` in both cases. -/
theorem c8_fallback_name (sid : String) (t u a : String)
    (menu : List MenuRow) (h : rawExtractedName u a = none) :
    ((buildStructuredCallOutcome sid (some "+15551234567") t u a menu).customer.name =
        "Caller 4567" ∧
     (buildStructuredCallOutcome sid (some "+15551234567") t u a menu).customer.has_actual_name =
        false) ∧
    ((buildStructuredCallOutcome sid none t u a menu).customer.name =
        "Caller" ∧
     (buildStructuredCallOutcome sid none t u a menu).customer.has_actual_name =
        false) := by
  have hclean : extractedCleanName u a = none := by
    unfold extractedCleanName
    rw [h]
    rfl
  have hhas : hasActualNameOf u a = false := by
    unfold hasActualNameOf
    rw [hclean]
    decide
  refine ⟨⟨?_, ?_⟩, ⟨?_, ?_⟩⟩
  all_goals simp only [buildOutcome_customer, hhas, if_false, Bool.false_eq_true]
  all_goals decide

/-- Witness for `c8_fallback_name` on the caller text "hello", which
matches none of the name patterns. -/
theorem c8_fallback_name_witness :
    ((buildStructuredCallOutcome "CA1" (some "+15551234567") "user: hello"
        "hello" "" []).customer.name = "Caller 4567" ∧
     (buildStructuredCallOutcome "CA1" (some "+15551234567") "user: hello"
        "hello" "" []).customer.has_actual_name = false) ∧
    ((buildStructuredCallOutcome "CA1" none "user: hello"
        "hello" "" []).customer.name = "Caller" ∧
     (buildStructuredCallOutcome "CA1" none "user: hello"
        "hello" "" []).customer.has_actual_name = false) :=
  c8_fallback_name "CA1" "user: hello" "hello" "" [] (by decide)

/-! ## Persistence model (Supabase tables as in-memory lists)

The collaborating tables used by the materializer, the tool handler and
the reconciler.  Row fields mirror the inserted columns; persistence
failures are caught and swallowed by the code, so the operations are total
state transformers. -/

/-- One `order_items` row (kept inside its order row; the relational split
by `order_id` carries no extra information here). -/
structure OrderItemRow where
  menu_item_id : Option String
  qty : Int
  modifier_json : List String
  line_total_cents : Int
deriving DecidableEq, Repr

/-- One `orders` row as inserted by `createOrder`. -/
structure OrderRow where
  caller_phone : Option String
  customer_name : String
  pickup_time : String
  notes : Option String
  total_cents : Int
  status : String
  items : List OrderItemRow
deriving DecidableEq, Repr

/-- One `reservations` row as inserted by `createReservation`. -/
structure ReservationRow where
  caller_phone : Option String
  guest_name : String
  party_size : Int
  reservation_time : String
  notes : Option String
  status : String
deriving DecidableEq, Repr

/-- One `call_events` row (only the identifying columns matter here). -/
structure EventRow where
  twilio_call_sid : String
  event_type : String
deriving DecidableEq, Repr

/-- The database state visible to the embedded operations. -/
structure Db where
  orders : List OrderRow
  reservations : List ReservationRow
  events : List EventRow
deriving DecidableEq, Repr

/-- Parameters of `createOrder` (optionality as in the TS signature). -/
structure CreateOrderItem where
  menuItemId : Option String
  qty : Int
  modifierJson : Option (List String)
  lineTotalCents : Option Int
deriving DecidableEq, Repr

/-- Parameters of `createOrder`. -/
structure CreateOrderParams where
  callerPhone : Option String
  customerName : String
  pickupTime : String
  notes : Option String
  totalCents : Option Int
  items : List CreateOrderItem
deriving DecidableEq, Repr

/-- `createOrder`: insert one `orders` row (status `new`, defaults applied)
plus its item rows. -/
def createOrder (p : CreateOrderParams) (db : Db) : Db :=
  { db with orders := db.orders ++
      [{ caller_phone := p.callerPhone, customer_name := p.customerName,
         pickup_time := p.pickupTime, notes := p.notes,
         total_cents := p.totalCents.getD 0, status := "new",
         items := p.items.map (fun it =>
           { menu_item_id := it.menuItemId, qty := it.qty,
             modifier_json := it.modifierJson.getD [],
             line_total_cents := it.lineTotalCents.getD 0 }) }] }

/-- Parameters of `createReservation`. -/
structure CreateReservationParams where
  callerPhone : Option String
  guestName : String
  partySize : Int
  reservationTime : String
  notes : Option String
  status : Option String
deriving DecidableEq, Repr

/-- `createReservation`: insert one `reservations` row (status defaults to
`confirmed`). -/
def createReservation (p : CreateReservationParams) (db : Db) : Db :=
  { db with reservations := db.reservations ++
      [{ caller_phone := p.callerPhone, guest_name := p.guestName,
         party_size := p.partySize, reservation_time := p.reservationTime,
         notes := p.notes, status := p.status.getD "confirmed" }] }

/-- `insertEvent` (its failure is always swallowed by callers). -/
def insertEventDb (sid eventType : String) (db : Db) : Db :=
  { db with events := db.events ++ [⟨sid, eventType⟩] }

/-- The idempotency tag `[auto:<callSid>]`. -/
def callTag (sid : String) : String := "[auto:" ++ sid ++ "]"

/-- The `ilike('notes', '%tag%')` guard: case-insensitive substring match
on a nullable notes column (NULL never matches). -/
def noteHasTag (tag : String) : Option String → Bool
  | none => false
  | some s => containsSeq (lowerL tag.data) (lowerL s.data)

theorem noteHasTag_of_parts (tag pre suf : String) :
    noteHasTag tag (some (pre ++ (tag ++ suf))) = true := by
  show containsSeq (lowerL tag.data) (lowerL (pre ++ (tag ++ suf)).data) = true
  have hdata : (pre ++ (tag ++ suf)).data =
      pre.data ++ (tag.data ++ suf.data) := rfl
  rw [hdata]
  unfold lowerL
  rw [List.map_append, List.map_append, ← List.append_assoc]
  exact containsSeq_of_append _ _ _

/-- The human-readable order note written by the materializer; it embeds
the idempotency tag verbatim. -/
def orderSummaryOf (sid : String) (st : StructuredCallOutcome) : String :=
  (st.customer.name ++ " called to place a pickup order." ++ " " ++
    (if st.order.items.length > 0 then
      "Items discussed: " ++
        String.intercalate ", " (st.order.items.map OutcomeItem.name) ++ "."
    else "Items were discussed and confirmed on call.") ++ " " ++
    "Pickup time confirmed as " ++ st.order.pickup_time ++ "." ++ " ") ++
  (callTag sid ++ " auto-captured from transcript")

/-- The human-readable reservation note written by the materializer. -/
def reservationSummaryOf (sid : String) (st : StructuredCallOutcome) : String :=
  (st.customer.name ++ " called to reserve a table." ++ " " ++
    "Reservation date: " ++ st.reservation.date ++ "." ++ " " ++
    "Party size: " ++ toString st.reservation.party_size ++ "." ++ " " ++
    "Requested reservation time: " ++ st.reservation.reservation_time ++ "." ++ " " ++
    "Occasion: " ++ st.reservation.occasion ++ "." ++ " ") ++
  (callTag sid ++ " auto-captured from transcript")

theorem noteHasTag_orderSummary (sid : String) (st : StructuredCallOutcome) :
    noteHasTag (callTag sid) (some (orderSummaryOf sid st)) = true :=
  noteHasTag_of_parts _ _ _

theorem noteHasTag_reservationSummary (sid : String) (st : StructuredCallOutcome) :
    noteHasTag (callTag sid) (some (reservationSummaryOf sid st)) = true :=
  noteHasTag_of_parts _ _ _

/-- The `orders` row the materializer inserts for a call. -/
def materializeOrderParams (sid : String) (fromNumber : Option String)
    (st : StructuredCallOutcome) : CreateOrderParams :=
  { callerPhone := fromNumber, customerName := st.customer.name,
    pickupTime := st.order.pickup_time, notes := some (orderSummaryOf sid st),
    totalCents := some st.order.total_cents,
    items := st.order.items.map (fun it =>
      { menuItemId := it.menuItemId, qty := it.qty, modifierJson := none,
        lineTotalCents := some it.lineTotalCents }) }

/-- The `reservations` row the materializer inserts for a call. -/
def materializeReservationParams (sid : String) (fromNumber : Option String)
    (st : StructuredCallOutcome) : CreateReservationParams :=
  { callerPhone := fromNumber, guestName := st.customer.name,
    partySize := Int.ofNat st.reservation.party_size,
    reservationTime := st.reservation.reservation_time,
    notes := some (reservationSummaryOf sid st),
    status := some st.reservation.status }

/-- `materializeFromStructuredOutput`: check for an already-tagged order
(resp. reservation) row, and only when absent and the corresponding intent
is set, insert a new row whose notes embed the `[auto:<callSid>]` tag. -/
def materializeFromStructuredOutput (sid : String) (fromNumber : Option String)
    (st : StructuredCallOutcome) (db : Db) : Db :=
  let tag := callTag sid
  let existingOrder := db.orders.any (fun o => noteHasTag tag o.notes)
  let existingReservation :=
    db.reservations.any (fun r => noteHasTag tag r.notes)
  let db1 :=
    if st.intents.order && !existingOrder then
      createOrder (materializeOrderParams sid fromNumber st) db
    else db
  if st.intents.reservation && !existingReservation then
    createReservation (materializeReservationParams sid fromNumber st) db1
  else db1

/-- The row shape `createOrder` inserts. -/
def orderRowOf (p : CreateOrderParams) : OrderRow :=
  { caller_phone := p.callerPhone, customer_name := p.customerName,
    pickup_time := p.pickupTime, notes := p.notes,
    total_cents := p.totalCents.getD 0, status := "new",
    items := p.items.map (fun it =>
      { menu_item_id := it.menuItemId, qty := it.qty,
        modifier_json := it.modifierJson.getD [],
        line_total_cents := it.lineTotalCents.getD 0 }) }

/-- The row shape `createReservation` inserts. -/
def reservationRowOf (p : CreateReservationParams) : ReservationRow :=
  { caller_phone := p.callerPhone, guest_name := p.guestName,
    party_size := p.partySize, reservation_time := p.reservationTime,
    notes := p.notes, status := p.status.getD "confirmed" }

theorem mat_orders (sid : String) (fn : Option String)
    (st : StructuredCallOutcome) (db : Db) :
    (materializeFromStructuredOutput sid fn st db).orders =
      if st.intents.order &&
          !(db.orders.any fun o => noteHasTag (callTag sid) o.notes) then
        db.orders ++ [orderRowOf (materializeOrderParams sid fn st)]
      else db.orders := by
  by_cases h1 : (st.intents.order &&
      !(db.orders.any fun o => noteHasTag (callTag sid) o.notes)) = true <;>
    by_cases h2 : (st.intents.reservation &&
        !(db.reservations.any fun r => noteHasTag (callTag sid) r.notes)) = true <;>
      simp [materializeFromStructuredOutput, createOrder, createReservation,
        orderRowOf, h1, h2]

theorem mat_reservations (sid : String) (fn : Option String)
    (st : StructuredCallOutcome) (db : Db) :
    (materializeFromStructuredOutput sid fn st db).reservations =
      if st.intents.reservation &&
          !(db.reservations.any fun r => noteHasTag (callTag sid) r.notes) then
        db.reservations ++
          [reservationRowOf (materializeReservationParams sid fn st)]
      else db.reservations := by
  by_cases h1 : (st.intents.order &&
      !(db.orders.any fun o => noteHasTag (callTag sid) o.notes)) = true <;>
    by_cases h2 : (st.intents.reservation &&
        !(db.reservations.any fun r => noteHasTag (callTag sid) r.notes)) = true <;>
      simp [materializeFromStructuredOutput, createOrder, createReservation,
        reservationRowOf, h1, h2]

theorem mat_events (sid : String) (fn : Option String)
    (st : StructuredCallOutcome) (db : Db) :
    (materializeFromStructuredOutput sid fn st db).events = db.events := by
  by_cases h1 : (st.intents.order &&
      !(db.orders.any fun o => noteHasTag (callTag sid) o.notes)) = true <;>
    by_cases h2 : (st.intents.reservation &&
        !(db.reservations.any fun r => noteHasTag (callTag sid) r.notes)) = true <;>
      simp [materializeFromStructuredOutput, createOrder, createReservation,
        h1, h2]

theorem dbEq_of_fields {a b : Db} (h1 : a.orders = b.orders)
    (h2 : a.reservations = b.reservations) (h3 : a.events = b.events) :
    a = b := by
  cases a; cases b; simp_all

/-- C2: materialization is idempotent per call identifier.  Starting from a
database with no row tagged `[auto:<callSid>]`, running the materializer
twice on the same outcome (with both intents set) (a) leaves the database
exactly as after the first run — the second run finds the tagged rows and
inserts nothing — and (b) yields exactly one tagged order row and one
tagged reservation row, each table having grown by exactly one row. -/
theorem c2_materializer_idempotent (sid : String) (fn : Option String)
    (st : StructuredCallOutcome) (db : Db)
    (ho : st.intents.order = true) (hr : st.intents.reservation = true)
    (hno : ∀ o ∈ db.orders, noteHasTag (callTag sid) o.notes = false)
    (hnr : ∀ r ∈ db.reservations, noteHasTag (callTag sid) r.notes = false) :
    materializeFromStructuredOutput sid fn st
        (materializeFromStructuredOutput sid fn st db) =
      materializeFromStructuredOutput sid fn st db ∧
    ((materializeFromStructuredOutput sid fn st
        (materializeFromStructuredOutput sid fn st db)).orders.filter
          (fun o => noteHasTag (callTag sid) o.notes)).length = 1 ∧
    ((materializeFromStructuredOutput sid fn st
        (materializeFromStructuredOutput sid fn st db)).reservations.filter
          (fun r => noteHasTag (callTag sid) r.notes)).length = 1 ∧
    (materializeFromStructuredOutput sid fn st
        (materializeFromStructuredOutput sid fn st db)).orders.length =
      db.orders.length + 1 ∧
    (materializeFromStructuredOutput sid fn st
        (materializeFromStructuredOutput sid fn st db)).reservations.length =
      db.reservations.length + 1 := by
  have heo : (db.orders.any fun o => noteHasTag (callTag sid) o.notes) = false :=
    List.any_eq_false.mpr (fun o hmem => by simp [hno o hmem])
  have her : (db.reservations.any fun r => noteHasTag (callTag sid) r.notes) = false :=
    List.any_eq_false.mpr (fun r hmem => by simp [hnr r hmem])
  have htagO : noteHasTag (callTag sid)
      (orderRowOf (materializeOrderParams sid fn st)).notes = true :=
    noteHasTag_orderSummary sid st
  have htagR : noteHasTag (callTag sid)
      (reservationRowOf (materializeReservationParams sid fn st)).notes = true :=
    noteHasTag_reservationSummary sid st
  have h1o : (materializeFromStructuredOutput sid fn st db).orders =
      db.orders ++ [orderRowOf (materializeOrderParams sid fn st)] := by
    rw [mat_orders]; simp [ho, heo]
  have h1r : (materializeFromStructuredOutput sid fn st db).reservations =
      db.reservations ++
        [reservationRowOf (materializeReservationParams sid fn st)] := by
    rw [mat_reservations]; simp [hr, her]
  have h2eo : ((materializeFromStructuredOutput sid fn st db).orders.any
      fun o => noteHasTag (callTag sid) o.notes) = true := by
    rw [h1o]; simp [htagO]
  have h2er : ((materializeFromStructuredOutput sid fn st db).reservations.any
      fun r => noteHasTag (callTag sid) r.notes) = true := by
    rw [h1r]; simp [htagR]
  have hsecond : materializeFromStructuredOutput sid fn st
      (materializeFromStructuredOutput sid fn st db) =
      materializeFromStructuredOutput sid fn st db := by
    refine dbEq_of_fields ?_ ?_ (mat_events sid fn st _)
    · rw [mat_orders, h2eo]
      simp
    · rw [mat_reservations, h2er]
      simp
  have hfo : db.orders.filter (fun o => noteHasTag (callTag sid) o.notes) = [] :=
    List.filter_eq_nil_iff.mpr (fun o hm => by simp [hno o hm])
  have hfr : db.reservations.filter
      (fun r => noteHasTag (callTag sid) r.notes) = [] :=
    List.filter_eq_nil_iff.mpr (fun r hm => by simp [hnr r hm])
  refine ⟨hsecond, ?_, ?_, ?_, ?_⟩ <;> rw [hsecond]
  · rw [h1o, List.filter_append, hfo]
    simp [List.filter, htagO]
  · rw [h1r, List.filter_append, hfr]
    simp [List.filter, htagR]
  · rw [h1o]; simp
  · rw [h1r]; simp

/-- A concrete structured outcome with both intents set. -/
def demoOutcome : StructuredCallOutcome :=
  { schema_version := "1.0", twilio_call_sid := "CA9",
    customer :=
      { name := "Alex Rivera", has_actual_name := true, caller_phone := none },
    intents := { order := true, reservation := true },
    order := { pickup_time := "7 pm", total_cents := 0, items := [] },
    reservation :=
      { party_size := 4, date := "today", reservation_time := "7 pm",
        occasion := "Not specified", status := "confirmed" } }

/-- Witness for `c2_materializer_idempotent` on an empty database. -/
theorem c2_materializer_idempotent_witness :
    materializeFromStructuredOutput "CA9" none demoOutcome
        (materializeFromStructuredOutput "CA9" none demoOutcome ⟨[], [], []⟩) =
      materializeFromStructuredOutput "CA9" none demoOutcome ⟨[], [], []⟩ ∧
    ((materializeFromStructuredOutput "CA9" none demoOutcome
        (materializeFromStructuredOutput "CA9" none demoOutcome
          ⟨[], [], []⟩)).orders.filter
          (fun o => noteHasTag (callTag "CA9") o.notes)).length = 1 ∧
    ((materializeFromStructuredOutput "CA9" none demoOutcome
        (materializeFromStructuredOutput "CA9" none demoOutcome
          ⟨[], [], []⟩)).reservations.filter
          (fun r => noteHasTag (callTag "CA9") r.notes)).length = 1 ∧
    (materializeFromStructuredOutput "CA9" none demoOutcome
        (materializeFromStructuredOutput "CA9" none demoOutcome
          ⟨[], [], []⟩)).orders.length = (⟨[], [], []⟩ : Db).orders.length + 1 ∧
    (materializeFromStructuredOutput "CA9" none demoOutcome
        (materializeFromStructuredOutput "CA9" none demoOutcome
          ⟨[], [], []⟩)).reservations.length =
      (⟨[], [], []⟩ : Db).reservations.length + 1 :=
  c2_materializer_idempotent "CA9" none demoOutcome ⟨[], [], []⟩ rfl rfl
    (by simp) (by simp)

/-! ## Tool-call validation and handling (`handleToolEvent`, zod schemas) -/

/-- One entry of the `items` array of a `create_order` tool payload. -/
structure ToolItemArgs where
  menu_item_id : Option String
  qty : Option Int
  modifiers : Option (List String)
  line_total_cents : Option Int
deriving DecidableEq, Repr

/-- The argument object extracted from a tool/function-call event (absent
JSON keys are `none`; a field of the wrong JSON type would likewise fail
the schema, which this shallow embedding does not need to distinguish). -/
structure ToolArgs where
  caller_phone : Option String
  customer_name : Option String
  guest_name : Option String
  pickup_time : Option String
  notes : Option String
  total_cents : Option Int
  items : Option (List ToolItemArgs)
  party_size : Option Int
  reservation_time : Option String
  status : Option String
deriving DecidableEq, Repr

/-- An optional field satisfies a zod constraint when absent or valid. -/
def optCheck {α : Type} (o : Option α) (p : α → Bool) : Bool :=
  match o with
  | none => true
  | some v => p v

/-- `orderToolSchema.safeParse(args).success`: `customer_name` required and
non-empty; `total_cents` a non-negative integer if present; item `qty`
positive and `line_total_cents` non-negative if present. -/
def orderToolParseOk (a : ToolArgs) : Bool :=
  (match a.customer_name with
   | some n => decide (1 ≤ n.length)
   | none => false) &&
  optCheck a.total_cents (fun t => decide (0 ≤ t)) &&
  optCheck a.items (fun its => its.all (fun it =>
    optCheck it.qty (fun q => decide (0 < q)) &&
    optCheck it.line_total_cents (fun lt => decide (0 ≤ lt))))

/-- `reservationToolSchema.safeParse(args).success`: `guest_name` required
and non-empty; `party_size` a positive integer if present; `status` in the
enum if present. -/
def reservationToolParseOk (a : ToolArgs) : Bool :=
  (match a.guest_name with
   | some n => decide (1 ≤ n.length)
   | none => false) &&
  optCheck a.party_size (fun p => decide (0 < p)) &&
  optCheck a.status (fun s => s == "confirmed" || s == "escalated")

/-- JS `String.prototype.trim` on a Lean string. -/
def jsTrim (s : String) : String := String.mk (trimChars s.data)

/-- `DeepgramCallSession.handleToolEvent` (schema-validating variant): on a
failed parse, log and return without touching the database; on success,
record a `structured_output` event and insert the order (resp. reservation)
row, with the `[auto:<callSid>]` tag appended to the notes.  Persistence
errors are caught by the code, so the model is a total function — the
handler never raises to its caller. -/
def handleToolEvent (name : Option String) (args : ToolArgs) (sid : String)
    (db : Db) : Db :=
  let db1 :=
    if name = some "create_order" then
      if orderToolParseOk args then
        let tag := callTag sid
        let normalizedItems : List CreateOrderItem :=
          (args.items.getD []).map (fun it =>
            { menuItemId := it.menu_item_id, qty := it.qty.getD 1,
              modifierJson := some (it.modifiers.getD []),
              lineTotalCents := it.line_total_cents })
        createOrder
          { callerPhone := args.caller_phone,
            customerName := args.customer_name.getD "",
            pickupTime := args.pickup_time.getD "20 minutes",
            notes := some (jsTrim ((args.notes.getD "") ++ " " ++ tag)),
            totalCents := args.total_cents,
            items := normalizedItems }
          (insertEventDb sid "structured_output" db)
      else db
    else db
  if name = some "create_reservation" then
    if reservationToolParseOk args then
      let tag := callTag sid
      createReservation
        { callerPhone := args.caller_phone,
          guestName := args.guest_name.getD "",
          partySize := args.party_size.getD 2,
          reservationTime := args.reservation_time.getD "ASAP",
          notes := some (jsTrim ((args.notes.getD "") ++ " " ++ tag)),
          status := some (args.status.getD "confirmed") }
        (insertEventDb sid "structured_output" db1)
    else db1
  else db1

/-- C4: a `create_order` payload without a non-empty `customer_name`
(respectively a `create_reservation` payload without a non-empty
`guest_name`) is rejected by the schema check: the handler returns with the
database untouched — no order, reservation or event row is written — and,
being a total function whose persistence failures the code catches, it
raises nothing to its caller. -/
theorem c4_invalid_tool_payload_rejected (name : Option String)
    (args : ToolArgs) (sid : String) (db : Db)
    (h : (name = some "create_order" ∧
            (args.customer_name = none ∨ args.customer_name = some "")) ∨
         (name = some "create_reservation" ∧
            (args.guest_name = none ∨ args.guest_name = some ""))) :
    handleToolEvent name args sid db = db := by
  rcases h with ⟨hn, hm⟩ | ⟨hn, hm⟩
  · have hparse : orderToolParseOk args = false := by
      rcases hm with hm | hm <;> simp [orderToolParseOk, hm]
    unfold handleToolEvent
    rw [hn]
    simp [hparse]
  · have hparse : reservationToolParseOk args = false := by
      rcases hm with hm | hm <;> simp [reservationToolParseOk, hm]
    unfold handleToolEvent
    rw [hn]
    simp [hparse]

/-- Witness for `c4_invalid_tool_payload_rejected`: a `create_order`
payload with no `customer_name` at all leaves the database unchanged. -/
theorem c4_invalid_tool_payload_rejected_witness :
    handleToolEvent (some "create_order")
      { caller_phone := none, customer_name := none, guest_name := none,
        pickup_time := some "10 minutes", notes := none, total_cents := none,
        items := none, party_size := none, reservation_time := none,
        status := none } "CA7" ⟨[], [], []⟩ = ⟨[], [], []⟩ :=
  c4_invalid_tool_payload_rejected (some "create_order")
    { caller_phone := none, customer_name := none, guest_name := none,
      pickup_time := some "10 minutes", notes := none, total_cents := none,
      items := none, party_size := none, reservation_time := none,
      status := none } "CA7" ⟨[], [], []⟩ (Or.inl ⟨rfl, Or.inl rfl⟩)

/-! ## The Stale-Call Reconciler (`reconcileStaleInProgressCalls`) -/

/-- One `calls` row with the columns the reconciler reads and writes
(timestamps as integer epoch milliseconds). -/
structure CallRow where
  id : Nat
  twilio_call_sid : String
  status : String
  created_at : Int
  ended_at : Option Int
deriving DecidableEq, Repr

/-- The reconciler's select filter: status still `in_progress` and
created strictly before `now - staleAfterMinutes * 60_000`. -/
def isStaleInProgress (now staleAfterMinutes : Int) (r : CallRow) : Bool :=
  r.status == "in_progress" &&
    decide (r.created_at < now - staleAfterMinutes * 60000)

/-- `reconcileStaleInProgressCalls`: select the stale in-progress rows,
then update exactly the rows with those ids to status `completed` with
`ended_at = now`. -/
def reconcileStaleInProgressCalls (now staleAfterMinutes : Int)
    (calls : List CallRow) : List CallRow :=
  let staleIds :=
    (calls.filter (isStaleInProgress now staleAfterMinutes)).map CallRow.id
  calls.map (fun r =>
    if staleIds.contains r.id then
      { r with status := "completed", ended_at := some now }
    else r)

/-- C9: one reconciler run over rows with distinct ids flips every
`in_progress` row older than the threshold to `completed` with the non-null
end timestamp `some now`, and leaves every other row — younger than the
threshold or not `in_progress` — exactly unchanged. -/
theorem c9_reconciler (now staleAfterMinutes : Int) (calls : List CallRow)
    (hnodup : (calls.map CallRow.id).Nodup) (i : Nat) (r : CallRow)
    (hget : calls.get? i = some r) :
    (isStaleInProgress now staleAfterMinutes r = true →
      (reconcileStaleInProgressCalls now staleAfterMinutes calls).get? i =
        some { r with status := "completed", ended_at := some now }) ∧
    (isStaleInProgress now staleAfterMinutes r = false →
      (reconcileStaleInProgressCalls now staleAfterMinutes calls).get? i =
        some r) := by
  have hmem : r ∈ calls := List.get?_mem hget
  have hmap : (reconcileStaleInProgressCalls now staleAfterMinutes calls).get? i =
      some (if ((calls.filter (isStaleInProgress now staleAfterMinutes)).map
          CallRow.id).contains r.id then
        { r with status := "completed", ended_at := some now }
      else r) := by
    unfold reconcileStaleInProgressCalls
    rw [List.get?_map, hget]
    rfl
  constructor
  · intro hstale
    have hin : ((calls.filter (isStaleInProgress now staleAfterMinutes)).map
        CallRow.id).contains r.id = true := by
      have hfm : r ∈ calls.filter (isStaleInProgress now staleAfterMinutes) :=
        List.mem_filter.mpr ⟨hmem, hstale⟩
      exact List.elem_eq_true_of_mem (List.mem_map.mpr ⟨r, hfm, rfl⟩)
    rw [hmap, hin]
    simp
  · intro hfresh
    have hnotin : ((calls.filter (isStaleInProgress now staleAfterMinutes)).map
        CallRow.id).contains r.id = false := by
      by_contra hcon
      have hcon2 : ((calls.filter (isStaleInProgress now staleAfterMinutes)).map
          CallRow.id).contains r.id = true := by
        cases hval : ((calls.filter (isStaleInProgress now staleAfterMinutes)).map
            CallRow.id).contains r.id
        · exact absurd hval hcon
        · rfl
      have hidmem : r.id ∈ (calls.filter
          (isStaleInProgress now staleAfterMinutes)).map CallRow.id :=
        List.mem_of_elem_eq_true hcon2
      obtain ⟨r2, hr2f, hr2id⟩ := List.mem_map.mp hidmem
      obtain ⟨hr2mem, hr2stale⟩ := List.mem_filter.mp hr2f
      have hr2eq : r2 = r :=
        List.inj_on_of_nodup_map hnodup hr2mem hmem hr2id
      rw [hr2eq, hfresh] at hr2stale
      exact Bool.false_ne_true hr2stale
    rw [hmap, hnotin]
    simp

/-- Witness for `c9_reconciler`: a two-row table, one stale in-progress
call and one fresh one, at `now = 1000000` with the default 3-minute
threshold. -/
theorem c9_reconciler_witness :
    (isStaleInProgress 1000000 3
        ⟨1, "CAstale", "in_progress", 0, none⟩ = true →
      (reconcileStaleInProgressCalls 1000000 3
          [⟨1, "CAstale", "in_progress", 0, none⟩,
           ⟨2, "CAfresh", "in_progress", 999000, none⟩]).get? 0 =
        some ⟨1, "CAstale", "completed", 0, some 1000000⟩) ∧
    (isStaleInProgress 1000000 3
        ⟨1, "CAstale", "in_progress", 0, none⟩ = false →
      (reconcileStaleInProgressCalls 1000000 3
          [⟨1, "CAstale", "in_progress", 0, none⟩,
           ⟨2, "CAfresh", "in_progress", 999000, none⟩]).get? 0 =
        some ⟨1, "CAstale", "in_progress", 0, none⟩) :=
  c9_reconciler 1000000 3
    [⟨1, "CAstale", "in_progress", 0, none⟩,
     ⟨2, "CAfresh", "in_progress", 999000, none⟩]
    (by decide) 0 ⟨1, "CAstale", "in_progress", 0, none⟩ rfl
